import Mathlib

/-!
Shallow embedding of the CureIQ adaptive study-session engine
(`session.py`, `models.py`) and proofs about its scoring, interval,
selection, evaluation and performance-update logic.

Modelling conventions:
* Python floats are modelled as exact rationals (`ℚ`); the one genuinely
  real-valued operation, `2 ** current_rank` in `calculate_interval`, is
  modelled with real exponentiation (`Real.rpow`).
* Python ints are modelled as `ℤ`.
* Timestamps (`datetime.datetime`) are modelled as rational numbers counting
  days, so `now + datetime.timedelta(days=k)` becomes `now + k` and
  `(now - last_seen).total_seconds() / 86400` becomes `now - last_seen`.
* The SQLAlchemy session is modelled as the committed store state
  (`Option UserPerformance` for the single question being updated) plus
  explicit fault flags saying which store operation raises.
-/

namespace CureIQ

/-- Python `int(x)` truncates toward zero: floor for non-negative reals,
ceiling for negative ones. -/
noncomputable def pyInt (x : ℝ) : ℤ :=
  if 0 ≤ x then ⌊x⌋ else ⌈x⌉

/-- Python slice `l[:n]`: a non-negative `n` takes the first `n` elements
(clamped to the length); a negative `n` counts from the end, taking
`len(l) + n` elements (clamped below at zero). -/
def pyTake {α : Type} (n : ℤ) (l : List α) : List α :=
  l.take (if n < 0 then ((l.length : ℤ) + n).toNat else n.toNat)

/-- The `user_performance` row (`models.py`, class `UserPerformance`).
`last_seen` is nullable; counters are Python ints; times are seconds and
timestamps are day counts. -/
structure UserPerformance where
  question_id : ℕ
  last_seen : Option ℚ
  times_seen : ℤ
  times_correct : ℤ
  times_incorrect : ℤ
  average_response_time : ℚ
  next_review : ℚ
  current_rank : ℚ
  previous_times_correct : ℤ
  previous_average_response_time : ℚ
deriving Repr, DecidableEq

/-- Constructor-time scoring configuration of `SessionManager.__init__`,
with its default values. -/
structure Config where
  max_response_time : ℚ := 60
  max_days : ℚ := 30
  weight_correct : ℚ := 1.0
  weight_response_time : ℚ := 0.5
  weight_time : ℚ := 0.5
  weight_rank : ℚ := 0.1
  weight_trend : ℚ := 2.0

/-- `SessionManager.calculate_score` (session.py lines 38-95): the priority
score of a performance record; lower means higher priority. `now` stands for
`datetime.datetime.utcnow()`. -/
def calculate_score (cfg : Config) (now : ℚ) (perf : UserPerformance) : ℚ :=
  let time_since_last_review : ℚ :=
    match perf.last_seen with
    | some ls => now - ls
    | none => cfg.max_days
  let time_since_last_review := min time_since_last_review cfg.max_days
  let times_correct : ℚ := (perf.times_correct : ℚ)
  let avg_response_time := perf.average_response_time
  let correctness_factor := 1 / (times_correct + 1)
  let response_time_factor := avg_response_time / cfg.max_response_time
  let time_factor := time_since_last_review / cfg.max_days
  let rank_factor := perf.current_rank
  let change_correctness : ℚ :=
    if perf.times_seen > 1 ∧ perf.previous_times_correct > 0 then
      (perf.times_correct : ℚ) / (perf.times_seen : ℚ) -
        (perf.previous_times_correct : ℚ) / ((perf.times_seen : ℚ) - 1)
    else 0
  let change_response_time : ℚ :=
    if perf.times_seen > 1 ∧ perf.previous_average_response_time > 0 then
      (perf.previous_average_response_time - avg_response_time) /
        (perf.previous_average_response_time + 1)
    else 0
  let trend_factor := change_correctness + change_response_time
  correctness_factor * cfg.weight_correct +
    response_time_factor * cfg.weight_response_time +
    time_factor * cfg.weight_time -
    rank_factor * cfg.weight_rank +
    trend_factor * cfg.weight_trend

/-- Score assigned during selection (session.py lines 125-129): a question
with a performance record is scored by `calculate_score`; a question with no
record gets score 0 (highest priority). -/
def scoreOf (cfg : Config) (now : ℚ) (p : Option UserPerformance) : ℚ :=
  match p with
  | some perf => calculate_score cfg now perf
  | none => 0

/-- `SessionManager.select_questions` (session.py lines 97-142) after the
database query: `questions` is the filtered candidate pool paired with each
question's optional performance record, `num_questions` the limit.
`random.shuffle` is modelled by the `shuffle` parameter (theorems assume it
permutes its input); the non-random branch sorts stably by ascending score
(Python `list.sort(key=...)`) and both branches take the first
`num_questions` by Python slicing. -/
def select_questions {Q : Type} (cfg : Config) (now : ℚ)
    (questions : List (Q × Option UserPerformance)) (num_questions : ℤ)
    (random_selection : Bool) (shuffle : List (Q × ℚ) → List (Q × ℚ)) :
    List Q :=
  let scored_questions := questions.map (fun q => (q.1, scoreOf cfg now q.2))
  let chosen :=
    if random_selection then shuffle scored_questions
    else scored_questions.insertionSort (fun a b => a.2 ≤ b.2)
  (pyTake num_questions chosen).map Prod.fst

/-- The characters stripped from both answer sides in
`present_question` (session.py lines 206-207): the Python call
`.strip(chars)` with `chars` the double quote, single quote, the square
brackets and the backslash. -/
def strip_chars : List Char :=
  [Char.ofNat 34, Char.ofNat 39, Char.ofNat 91, Char.ofNat 93, Char.ofNat 92]

/-- Python `s.strip(chars)`: remove leading and trailing characters that are
members of `chars`. -/
def pyStrip (chars : List Char) (s : String) : String :=
  String.mk
    (((s.data.dropWhile (fun c => chars.contains c)).reverse.dropWhile
      (fun c => chars.contains c)).reverse)

/-- Python `s.strip()` with no argument: remove leading and trailing
whitespace. -/
def pyStripWs (s : String) : String :=
  String.mk
    (((s.data.dropWhile Char.isWhitespace).reverse.dropWhile
      Char.isWhitespace).reverse)

/-- The normalization `x.strip().strip('"\x27[]\x5c')` applied to each side of
the answer comparison in `present_question` (session.py lines 206-207). -/
def normalize_option (s : String) : String :=
  pyStrip strip_chars (pyStripWs s)

/-- The correctness comparison of `present_question` (session.py line 208):
both the selected option text and the canonical correct option are
normalized, then compared for string equality. -/
def evalAnswer (selected_option correct_option : String) : Bool :=
  normalize_option selected_option == normalize_option correct_option

/-- `SessionManager.calculate_interval` (session.py lines 314-338). Python
`2 ** current_rank` on floats is modelled by real exponentiation and
`int(...)` by truncation toward zero; `max(1, ...)` clamps the result to at
least one day. -/
noncomputable def calculate_interval (current_rank : ℝ) (correct : Bool)
    (is_new : Bool) : ℤ :=
  let base_interval : ℝ := 1
  if is_new then (if correct then 3 else 1)
  else if correct then max 1 (pyInt (base_interval * (2 : ℝ) ^ current_rank))
  else max 1 (pyInt (base_interval / current_rank))

/-- The in-memory mutation performed by `SessionManager.update_performance`
(session.py lines 234-294) before `commit`: creation of a fresh record when
none exists, otherwise the snapshot/increment/average/rank/interval update,
with the Python statements translated in execution order. -/
noncomputable def applyUpdate (qid : ℕ) (db : Option UserPerformance)
    (is_correct : Bool) (response_time : ℚ) (now : ℚ) : UserPerformance :=
  match db with
  | none =>
    let interval := calculate_interval 1.0 is_correct true
    let initial_rank : ℚ := if is_correct then 0.8 else 1.2
    { question_id := qid
      last_seen := some now
      times_seen := 1
      times_correct := if is_correct then 1 else 0
      times_incorrect := if is_correct then 0 else 1
      average_response_time := response_time
      next_review := now + (interval : ℚ)
      current_rank := initial_rank
      previous_times_correct := 0
      previous_average_response_time := 0.0 }
  | some perf =>
    let previous_times_correct := perf.times_correct
    let previous_average_response_time := perf.average_response_time
    let times_seen := perf.times_seen + 1
    let times_correct :=
      if is_correct then perf.times_correct + 1 else perf.times_correct
    let times_incorrect :=
      if is_correct then perf.times_incorrect else perf.times_incorrect + 1
    let average_response_time :=
      (perf.average_response_time * ((times_seen : ℚ) - 1) + response_time) /
        (times_seen : ℚ)
    let correctness_ratio := (times_correct : ℚ) / (times_seen : ℚ)
    let response_time_improvement : ℚ :=
      if previous_average_response_time > 0 then
        (previous_average_response_time - average_response_time) /
          previous_average_response_time
      else 0
    let current_rank :=
      if is_correct then
        max 0.1 (perf.current_rank -
          0.1 * (1 + correctness_ratio + response_time_improvement))
      else
        min 2.0 (perf.current_rank + 0.1 * (2 - correctness_ratio))
    let interval := calculate_interval (current_rank : ℝ) is_correct false
    { question_id := perf.question_id
      last_seen := some now
      times_seen := times_seen
      times_correct := times_correct
      times_incorrect := times_incorrect
      average_response_time := average_response_time
      next_review := now + (interval : ℚ)
      current_rank := current_rank
      previous_times_correct := previous_times_correct
      previous_average_response_time := previous_average_response_time }

/-- Which store operations raise during one `update_performance` call: the
initial `session.query(...)` read, or the final `session.add`/`commit`
write. -/
structure StoreFaults where
  queryFails : Bool
  commitFails : Bool

/-- A `SQLAlchemyError` raised by a store operation. -/
inductive DBError where
  | queryError : DBError
  | commitError : DBError
deriving Repr, DecidableEq

/-- The body of the `try` block of `update_performance` (session.py lines
230-305): read the record, build the update in memory, then commit. An
exception at the read or at the write aborts with that error; on success the
new record is the committed state. -/
noncomputable def updateAttempt (db : Option UserPerformance)
    (f : StoreFaults) (qid : ℕ) (is_correct : Bool) (response_time : ℚ)
    (now : ℚ) : Except DBError (Option UserPerformance) :=
  if f.queryFails then .error .queryError
  else
    let perf := applyUpdate qid db is_correct response_time now
    if f.commitFails then .error .commitError
    else .ok (some perf)

/-- `SessionManager.update_performance` (session.py lines 218-312) as seen by
its caller: the `try` body runs once; both `except` clauses (lines 307-312)
roll the session back to the pre-call committed state, log, and return
normally, so no exception ever escapes. The result is the committed store
state after the call paired with the exception propagated to the caller. -/
noncomputable def update_performance (db : Option UserPerformance)
    (f : StoreFaults) (qid : ℕ) (is_correct : Bool) (response_time : ℚ)
    (now : ℚ) : Option UserPerformance × Option DBError :=
  match updateAttempt db f qid is_correct response_time now with
  | .ok db2 => (db2, none)
  | .error _ => (db, none)

/-- The counter invariant of the data model: all three counters are
non-negative and `times_seen` equals `times_correct + times_incorrect`. -/
def counterInvariant (p : UserPerformance) : Prop :=
  0 ≤ p.times_seen ∧ 0 ≤ p.times_correct ∧ 0 ≤ p.times_incorrect ∧
    p.times_seen = p.times_correct + p.times_incorrect

/-- The trend factor as the specification words it: the correctness trend
gated only on `timesSeen > 1`, and the response-time trend gated only on a
prior response time being present. Stated from the spec sentence, for
comparison with `calculate_score`. -/
def trend_factor_claimed (perf : UserPerformance) : ℚ :=
  (if perf.times_seen > 1 then
      (perf.times_correct : ℚ) / (perf.times_seen : ℚ) -
        (perf.previous_times_correct : ℚ) / ((perf.times_seen : ℚ) - 1)
    else 0) +
  (if perf.previous_average_response_time > 0 then
      (perf.previous_average_response_time - perf.average_response_time) /
        (perf.previous_average_response_time + 1)
    else 0)

/-- The trend factor exactly as `calculate_score` computes it (session.py
lines 74-86): the correctness trend additionally requires
`previous_times_correct > 0`, and the response-time trend additionally
requires `times_seen > 1`. -/
def trend_factor_code (perf : UserPerformance) : ℚ :=
  (if perf.times_seen > 1 ∧ perf.previous_times_correct > 0 then
      (perf.times_correct : ℚ) / (perf.times_seen : ℚ) -
        (perf.previous_times_correct : ℚ) / ((perf.times_seen : ℚ) - 1)
    else 0) +
  (if perf.times_seen > 1 ∧ perf.previous_average_response_time > 0 then
      (perf.previous_average_response_time - perf.average_response_time) /
        (perf.previous_average_response_time + 1)
    else 0)

/-- Weight configuration isolating the trend contribution: every weight zero
except `weight_trend = 1`. -/
def cfgTrendOnly : Config :=
  { weight_correct := 0, weight_response_time := 0, weight_time := 0,
    weight_rank := 0, weight_trend := 1 }

/-- A reachable record: seen once, answered correctly, average response time
one second, rank 1.0 (inside `[0.1, 2.0]`). -/
def perfC1 : UserPerformance :=
  { question_id := 1, last_seen := some 0, times_seen := 1, times_correct := 1,
    times_incorrect := 0, average_response_time := 1, next_review := 0,
    current_rank := 1, previous_times_correct := 0,
    previous_average_response_time := 0 }

/-- A record with `times_seen = 2` but `previous_times_correct = 0`. -/
def perfC2a : UserPerformance :=
  { question_id := 1, last_seen := some 0, times_seen := 2, times_correct := 1,
    times_incorrect := 1, average_response_time := 1, next_review := 0,
    current_rank := 1, previous_times_correct := 0,
    previous_average_response_time := 0 }

/-- A record with a prior average response time but `times_seen = 1`. -/
def perfC2b : UserPerformance :=
  { question_id := 1, last_seen := some 0, times_seen := 1, times_correct := 1,
    times_incorrect := 0, average_response_time := 3, next_review := 0,
    current_rank := 1, previous_times_correct := 0,
    previous_average_response_time := 5 }

/-- A committed record used to observe rollback behaviour. -/
def perfC10 : UserPerformance :=
  { question_id := 1, last_seen := some 0, times_seen := 3, times_correct := 2,
    times_incorrect := 1, average_response_time := 4, next_review := 7,
    current_rank := 1, previous_times_correct := 1,
    previous_average_response_time := 5 }

/-- Claim C1: the claim says `current_rank` stays in `[0.1, 2.0]` after every
`update_performance` application, but on a correct answer whose response time
drags the running average far above the previous one, the rank adjustment
`0.1 * (1 + correctness_ratio + response_time_improvement)` is negative and
the correct branch only clamps from below, so the rank of a record that
starts at 1.0 ends at 5.75, above the claimed upper bound 2.0. -/
theorem rank_exceeds_upper_bound_on_correct_update :
    (1 / 10 ≤ perfC1.current_rank ∧ perfC1.current_rank ≤ 2) ∧
    (applyUpdate 1 (some perfC1) true 100 0).current_rank = 23 / 4 ∧
    ¬ (applyUpdate 1 (some perfC1) true 100 0).current_rank ≤ 2 := by
  refine ⟨by constructor <;> norm_num [perfC1], ?_, ?_⟩ <;>
    simp [applyUpdate, perfC1] <;> norm_num

/-- Claim C2, counterexample: the claim gates the correctness trend only on
`timesSeen > 1` and the response-time trend only on a prior response time
being positive, but `calculate_score` additionally requires
`previous_times_correct > 0` for the former and `times_seen > 1` for the
latter. With all weights zero except `weight_trend = 1`, the score of
`perfC2a` (timesSeen = 2, previousTimesCorrect = 0) and of `perfC2b`
(timesSeen = 1, previousAvgTime = 5) is 0 in both cases, while the claimed
trend contribution is 1/2 and 1/3 respectively. -/
theorem trend_factor_claim_counterexample :
    (calculate_score cfgTrendOnly 0 perfC2a ≠
      calculate_score { cfgTrendOnly with weight_trend := 0 } 0 perfC2a +
        cfgTrendOnly.weight_trend * trend_factor_claimed perfC2a) ∧
    (calculate_score cfgTrendOnly 0 perfC2b ≠
      calculate_score { cfgTrendOnly with weight_trend := 0 } 0 perfC2b +
        cfgTrendOnly.weight_trend * trend_factor_claimed perfC2b) := by
  constructor <;>
    norm_num [calculate_score, trend_factor_claimed, cfgTrendOnly, perfC2a,
      perfC2b]

/-- Claim C2, amended: the trend contribution of `calculate_score` is
`weight_trend` times the sum of the correctness trend — which requires both
`timesSeen > 1` and `previousTimesCorrect > 0`, else 0 — and the
response-time trend — which requires both `timesSeen > 1` and
`previousAvgTime > 0`, else 0 — with the formulas
`(timesCorrect/timesSeen) − (previousTimesCorrect/(timesSeen−1))` and
`(previousAvgTime − avgTime)/(previousAvgTime + 1)`: the score is the
trend-free score plus that contribution. -/
theorem trend_factor_decomposition (cfg : Config) (now : ℚ)
    (perf : UserPerformance) :
    calculate_score cfg now perf =
      calculate_score { cfg with weight_trend := 0 } now perf +
        cfg.weight_trend * trend_factor_code perf := by
  simp only [calculate_score, trend_factor_code]
  ring

/-- Claim C4, counterexample: the normalization strips only whitespace and
the artifact characters, never a display-label prefix such as `A. `, so the
submitted text `"  A. Paris  "` normalizes to `"A. Paris"` and does not
compare equal to the canonical `"Paris"`. -/
theorem label_prefix_not_stripped :
    normalize_option "  A. Paris  " = "A. Paris" ∧
    normalize_option "Paris" = "Paris" ∧
    evalAnswer "  A. Paris  " "Paris" = false := by
  refine ⟨by decide, by decide, by decide⟩

/-- Claim C4, amended: the evaluator applies the same normalization — trim
whitespace, then strip the artifact characters `"`, `'`, `[`, `]`, `\` — to
both the submitted option text and the canonical correct option, and reports
correct exactly when the normalized strings are equal; whitespace padding is
removed (`"  Paris  "` matches `"Paris"`), but a display-label prefix such
as `A. ` is not stripped. -/
theorem evalAnswer_normalizes_both_sides :
    (∀ s c : String,
      evalAnswer s c = true ↔ normalize_option s = normalize_option c) ∧
    normalize_option "  Paris  " = "Paris" ∧
    evalAnswer "  Paris  " "Paris" = true := by
  refine ⟨fun s c => ?_, by decide, by decide⟩
  simp [evalAnswer]

/-- Claim C7: when no performance record exists, `update_performance` creates
one with `times_seen = 1`, the correctness counters set from the answer, the
average response time equal to the supplied response time, rank 0.8 on a
correct first answer and 1.2 on an incorrect one, and the next review 3 days
after `now` when correct and 1 day when incorrect. -/
theorem new_record_fields (qid : ℕ) (c : Bool) (rt now : ℚ) :
    (applyUpdate qid none c rt now).times_seen = 1 ∧
    (applyUpdate qid none c rt now).times_correct = (if c then 1 else 0) ∧
    (applyUpdate qid none c rt now).times_incorrect = (if c then 0 else 1) ∧
    (applyUpdate qid none c rt now).average_response_time = rt ∧
    (applyUpdate qid none c rt now).current_rank =
      (if c then 0.8 else 1.2) ∧
    (applyUpdate qid none c rt now).next_review =
      now + (if c then 3 else 1) := by
  cases c <;> simp [applyUpdate, calculate_interval]

/-- Claim C9: a question with no performance record is scored exactly 0
during selection, whatever the weight configuration and the current time. -/
theorem scoreOf_none_eq_zero (cfg : Config) (now : ℚ) :
    scoreOf cfg now none = 0 := rfl

/-- Claim C3, counterexample: for an existing question answered incorrectly
at rank 2.0, the claim says the interval is `floor(1/currentRank) = 0` days,
but `calculate_interval` clamps the floored value to a minimum of 1 day. -/
theorem interval_incorrect_not_floor :
    calculate_interval 2 false false = 1 ∧ ⌊(1 : ℝ) / 2⌋ = 0 := by
  constructor
  · simp [calculate_interval, pyInt]
    norm_num [Int.floor_eq_zero_iff]
  · norm_num [Int.floor_eq_zero_iff]

/-- Claim C3, amended: `calculate_interval` returns 3 for a new question
answered correctly and 1 for a new question answered incorrectly; for an
existing question with rank in `[0.1, 2.0]` it returns `⌊2 ^ currentRank⌋`
days when correct and `max 1 ⌊1 / currentRank⌋` days when incorrect; and the
result is always an integer at least 1. -/
theorem calculate_interval_amended (rank : ℝ) (h1 : 1 / 10 ≤ rank)
    (h2 : rank ≤ 2) :
    (∀ c, calculate_interval rank c true = if c then 3 else 1) ∧
    calculate_interval rank true false = ⌊(2 : ℝ) ^ rank⌋ ∧
    calculate_interval rank false false = max 1 ⌊1 / rank⌋ ∧
    (∀ c n, 1 ≤ calculate_interval rank c n) := by
  have hr0 : (0 : ℝ) < rank := lt_of_lt_of_le (by norm_num) h1
  have hpos : (0 : ℝ) ≤ (2 : ℝ) ^ rank := Real.rpow_nonneg (by norm_num) rank
  have hone : (1 : ℝ) ≤ (2 : ℝ) ^ rank :=
    Real.one_le_rpow (by norm_num) (le_of_lt hr0)
  refine ⟨fun c => by cases c <;> simp [calculate_interval], ?_, ?_, ?_⟩
  · simp only [calculate_interval, pyInt, one_mul, if_pos hpos,
      Bool.false_eq_true, if_false, if_true]
    exact max_eq_right (Int.le_floor.mpr (by exact_mod_cast hone))
  · simp [calculate_interval, pyInt, hr0.le, one_div]
  · intro c n
    cases n
    · cases c <;> simp [calculate_interval]
    · cases c <;> simp [calculate_interval]

/-- Claim C3 witness: the amended statement instantiated at rank 1. -/
theorem calculate_interval_amended_witness :
    (∀ c, calculate_interval 1 c true = if c then 3 else 1) ∧
    calculate_interval 1 true false = ⌊(2 : ℝ) ^ (1 : ℝ)⌋ ∧
    calculate_interval 1 false false = max 1 ⌊1 / (1 : ℝ)⌋ ∧
    (∀ c n, 1 ≤ calculate_interval 1 c n) :=
  calculate_interval_amended 1 (by norm_num) (by norm_num)

/-- Claim C5, counterexample: the claim says a limit `≤ 0` yields the empty
list, but Python slicing `scored[:limit]` with a negative limit counts from
the end: with a three-question pool and limit `-1` the selector returns the
first two questions, a non-empty list longer than the limit. -/
theorem negative_limit_returns_questions :
    select_questions {} 0 [((1 : ℕ), none), (2, none), (3, none)] (-1) false
      id = [1, 2] ∧
    select_questions {} 0 [((1 : ℕ), none), (2, none), (3, none)] (-1) false
      id ≠ [] := by
  constructor <;> decide

/-- Claim C5, amended: every selected question comes from the candidate
pool; for a non-negative limit at most `limit` questions are returned; limit
0 or an empty pool give the empty list; a negative limit follows Python
slice semantics (`pool[:limit]` keeps all but the last `-limit` scored
entries) and can return a non-empty list. -/
theorem select_questions_amended {Q : Type} (cfg : Config) (now : ℚ)
    (questions : List (Q × Option UserPerformance)) (n : ℤ)
    (random_selection : Bool) (shuffle : List (Q × ℚ) → List (Q × ℚ))
    (hsh : ∀ l, (shuffle l).Perm l) :
    (∀ q ∈ select_questions cfg now questions n random_selection shuffle,
      q ∈ questions.map Prod.fst) ∧
    (0 ≤ n →
      (select_questions cfg now questions n random_selection shuffle).length
        ≤ n.toNat) ∧
    (n = 0 →
      select_questions cfg now questions n random_selection shuffle = []) ∧
    (questions = [] →
      select_questions cfg now questions n random_selection shuffle = []) := by
  have hperm :
      (if random_selection then
          shuffle (questions.map fun q => (q.1, scoreOf cfg now q.2))
        else
          (questions.map fun q => (q.1, scoreOf cfg now q.2)).insertionSort
            (fun a b => a.2 ≤ b.2)).Perm
        (questions.map fun q => (q.1, scoreOf cfg now q.2)) := by
    cases random_selection
    · simpa using List.perm_insertionSort _ _
    · simpa using hsh _
  refine ⟨?_, ?_, ?_, ?_⟩
  · intro q hq
    simp only [select_questions, List.mem_map] at hq
    obtain ⟨pr, hpr, rfl⟩ := hq
    simp only [pyTake] at hpr
    have h2 := hperm.mem_iff.mp (List.take_subset _ _ hpr)
    simp only [List.mem_map] at h2
    obtain ⟨x, hx, hxe⟩ := h2
    exact List.mem_map.mpr ⟨x, hx, by rw [← hxe]⟩
  · intro hn
    simp only [select_questions, pyTake, List.length_map,
      if_neg (not_lt.mpr hn)]
    exact List.length_take_le _ _
  · rintro rfl
    simp [select_questions, pyTake]
  · rintro rfl
    cases random_selection <;>
      simp [select_questions, pyTake, List.Perm.eq_nil (hsh [])]

/-- Claim C5 witness: the amended statement instantiated on a one-question
pool with limit 1, deterministic order and the identity shuffle. -/
theorem select_questions_amended_witness :
    (∀ q ∈ select_questions {} 0
        [((1 : ℕ), (none : Option UserPerformance))] 1 false id,
      q ∈ [((1 : ℕ), (none : Option UserPerformance))].map Prod.fst) ∧
    ((0 : ℤ) ≤ 1 →
      (select_questions {} 0
        [((1 : ℕ), (none : Option UserPerformance))] 1 false id).length
        ≤ (1 : ℤ).toNat) ∧
    ((1 : ℤ) = 0 →
      select_questions {} 0
        [((1 : ℕ), (none : Option UserPerformance))] 1 false id = []) ∧
    ([((1 : ℕ), (none : Option UserPerformance))] = [] →
      select_questions {} 0
        [((1 : ℕ), (none : Option UserPerformance))] 1 false id = []) :=
  select_questions_amended {} 0 [((1 : ℕ), none)] 1 false id
    (fun l => List.Perm.refl l)

/-- Claim C6, counterexample: the claim says a store failure during
`update_performance` propagates to the caller, but both `except` clauses
catch the exception, roll back and return normally: with the read raising
(and likewise with the write raising) the call still returns with no
exception escaping. -/
theorem store_failure_not_propagated :
    update_performance none ⟨true, false⟩ 1 true 5 0 = (none, none) ∧
    update_performance none ⟨false, true⟩ 1 true 5 0 = (none, none) := by
  constructor <;> rfl

/-- Claim C6, amended: when a store read or write raises during
`update_performance`, the exception is caught inside the method: the session
is rolled back to the pre-call committed state, the error is logged, and the
call returns normally — the failure is not propagated to the caller, and the
attempt is not retried (the `try` body runs once). -/
theorem update_performance_swallows_store_errors
    (db : Option UserPerformance) (f : StoreFaults) (qid : ℕ) (c : Bool)
    (rt now : ℚ)
    (h : f.queryFails = true ∨ f.commitFails = true) :
    update_performance db f qid c rt now = (db, none) := by
  rcases h with h | h
  · simp [update_performance, updateAttempt, h]
  · cases hq : f.queryFails <;>
      simp [update_performance, updateAttempt, hq, h]

/-- Claim C6 witness: a failing store read on an empty store leaves the
store unchanged and raises nothing to the caller. -/
theorem update_performance_swallows_store_errors_witness :
    update_performance none ⟨true, false⟩ 2 true 5 0 = (none, none) :=
  update_performance_swallows_store_errors none ⟨true, false⟩ 2 true 5 0
    (Or.inl rfl)

/-- Claim C8: the counter invariant — non-negative counters with
`times_seen = times_correct + times_incorrect` — holds after every
`update_performance` application: unconditionally for a freshly created
record, and for a mutated record provided the stored record satisfied it
before the call (every stored record does, having itself been produced by
this updater). -/
theorem counters_invariant_preserved (qid : ℕ) (db : Option UserPerformance)
    (c : Bool) (rt now : ℚ)
    (h : ∀ p, db = some p → counterInvariant p) :
    counterInvariant (applyUpdate qid db c rt now) := by
  cases db with
  | none => cases c <;> simp [applyUpdate, counterInvariant]
  | some p =>
    obtain ⟨h1, h2, h3, h4⟩ := h p rfl
    cases c <;> simp [applyUpdate, counterInvariant] <;> omega

/-- Claim C8 witness: the invariant holds for the record created by a first
correct answer. -/
theorem counters_invariant_preserved_witness :
    counterInvariant (applyUpdate 1 none true 5 0) :=
  counters_invariant_preserved 1 none true 5 0 (by simp)

/-- Claim C10: if any store exception is raised while `update_performance`
is applying an answer, the session is rolled back and the committed
performance record is left in its pre-call state: no partially applied
update is committed on error. -/
theorem rollback_preserves_state (db : Option UserPerformance)
    (f : StoreFaults) (qid : ℕ) (c : Bool) (rt now : ℚ)
    (h : ∃ e, updateAttempt db f qid c rt now = Except.error e) :
    (update_performance db f qid c rt now).1 = db := by
  obtain ⟨e, he⟩ := h
  simp [update_performance, he]

/-- Claim C10 witness: a commit failure while updating an existing record
leaves the committed record exactly as it was before the call. -/
theorem rollback_preserves_state_witness :
    (update_performance (some perfC10) ⟨false, true⟩ 1 true 5 0).1 =
      some perfC10 :=
  rollback_preserves_state (some perfC10) ⟨false, true⟩ 1 true 5 0
    ⟨DBError.commitError, rfl⟩

end CureIQ
